import Mathlib

/-!
Verification of the HomeRoute web client and persistence schema.

The definitions below are a shallow embedding of the TypeScript source under
`src/web/src` (principally `api.ts` and the admin pages) and of the SQL
reference schema (`CREATE TABLE users / subscription_plans /
user_subscriptions / contact_usage`).  JavaScript runtime values that can
reach the embedded code paths are modelled by the inductive type `Json`
(numbers restricted to integers — every value actually stored or compared by
the embedded code is an integer or a string); JavaScript truthiness,
`String(...)` conversion, property access and optional chaining are modelled
by `jsTruthy`, `jsToString`, `jsField` and `Option`.
-/

/-- decimal rendering of a natural number, as produced by JavaScript
`String(n)`; definitionally the standard `Nat.repr`. -/
def natStr (n : Nat) : String :=
  Nat.repr n

/-- decimal rendering of an integer, as produced by JavaScript `String(n)`
for integral numbers; matches the `ToString Int` instance. -/
def intStr : Int → String
  | .ofNat m => natStr m
  | .negSucc m => "-" ++ natStr (m + 1)

/-- model of a JavaScript JSON value (the result of a successful
`JSON.parse`).  Numbers are restricted to integers. -/
inductive Json where
  | null : Json
  | bool (b : Bool) : Json
  | num (n : Int) : Json
  | str (s : String) : Json
  | arr (items : List Json) : Json
  | obj (fields : List (String × Json)) : Json

mutual

/-- model of JavaScript `String(v)` on a JSON value: strings unchanged,
numbers in decimal, `true`/`false`/`null` spelled out, arrays joined by
commas (with `null` elements rendered empty, as `Array.prototype.join`
does), plain objects as the literal object tag string. -/
def jsToString : Json → String
  | .null => "null"
  | .bool true => "true"
  | .bool false => "false"
  | .num n => intStr n
  | .str s => s
  | .arr items => jsArrJoin items
  | .obj _ => "[object Object]"

/-- comma-join of array elements for `jsToString`, rendering `null`
elements as the empty string exactly as `Array.prototype.join` does. -/
def jsArrJoin : List Json → String
  | [] => ""
  | [Json.null] => ""
  | [j] => jsToString j
  | Json.null :: rest => "," ++ jsArrJoin rest
  | j :: rest => jsToString j ++ "," ++ jsArrJoin rest

end

/-- model of JavaScript truthiness on a JSON value: `null`, `false`, `0`
and the empty string are falsy, everything else is truthy. -/
def jsTruthy : Json → Bool
  | .null => false
  | .bool b => b
  | .num n => decide (n ≠ 0)
  | .str s => decide (s ≠ "")
  | .arr _ => true
  | .obj _ => true

/-- truthiness of a possibly-`undefined` value (`none` models JavaScript
`undefined`, which is falsy). -/
def jsTruthyO : Option Json → Bool
  | none => false
  | some j => jsTruthy j

/-- conversion of a possibly-`undefined` value with `String(...)`. -/
def jsToStringO : Option Json → String
  | none => "undefined"
  | some j => jsToString j

/-- model of JavaScript property access `v?.k`: a lookup in a plain object
(duplicate keys resolved to the last occurrence, as `JSON.parse` does),
`undefined` on every non-object and on `null`/`undefined` receivers. -/
def jsField : Json → String → Option Json
  | .obj fields, k => fields.foldl (fun acc f => if f.1 = k then some f.2 else acc) none
  | _, _ => none

/-- model of `x || d` (JavaScript or-else on JSON values). -/
def jsOrElse (x : Option Json) (d : Json) : Json :=
  if jsTruthyO x then x.getD Json.null else d

/-! ### getSession (src/web/src/api.ts lines 35-43)

```ts
export function getSession(): Session {
  try {
    const raw = JSON.parse(localStorage.getItem(KEY) || "{}");
    const token = String(raw?.token || "");
    return { token, user: raw?.user, guest: Boolean(raw?.guest) && !token };
  } catch {
    return { token: "", guest: false };
  }
}
```

The store content reaches this code only through the outcome of
`JSON.parse`, so the embedding is a total function of that outcome:
`Except.error ()` models any store content on which `JSON.parse` throws
(malformed JSON), `Except.ok raw` models a successful parse.  A missing or
empty store item parses the literal text of an empty object and therefore
lands in the `Except.ok (Json.obj [])` case. -/

/-- result record of `getSession`. -/
structure SessionModel where
  token : String
  user : Option Json
  guest : Bool

/-- embedding of `getSession`, as a function of the `JSON.parse` outcome of
the persisted store content. -/
def getSession : Except Unit Json → SessionModel
  | .error _ => { token := "", user := none, guest := false }
  | .ok raw =>
    let token := if jsTruthyO (jsField raw "token") then jsToStringO (jsField raw "token") else ""
    { token := token
      user := jsField raw "user"
      guest := jsTruthyO (jsField raw "guest") && decide (token = "") }

/-! ### The api helper (src/web/src/api.ts lines 85-105)

```ts
async function api<T>(path: string, init?: RequestInit): Promise<T> {
  const s = getSession();
  const headers = new Headers(init?.headers || {});
  headers.set("Accept", "application/json");
  if (s.token) headers.set("Authorization", `Bearer ${s.token}`);
  let resp: Response;
  try {
    resp = await fetch(`${API_BASE}${path}`, { ...init, headers });
  } catch {
    throw new Error(`Network error (cannot reach API). Check API URL/CORS. Tried: ...`);
  }
  const text = await resp.text();
  let data: any = {};
  try {
    data = text ? JSON.parse(text) : {};
  } catch {
    data = { detail: text };
  }
  if (!resp.ok) throw new Error(data?.detail || data?.message || `HTTP ${resp.status}`);
  return data as T;
}
```

The function body issues exactly one `fetch`; there is no loop, recursion
or retry construct, so the embedding consumes exactly one fetch outcome.
The response body reaches the code only through `resp.text()` and the
outcome of `JSON.parse` on it, which `BodyOutcome` enumerates: an empty
body text, a body that parses to a JSON value, or a body on which
`JSON.parse` throws (carried verbatim as text). -/

/-- outcome of reading and parsing the response body inside `api`: empty
text, text that `JSON.parse` accepts (with its value), or text that
`JSON.parse` rejects (carried verbatim). -/
inductive BodyOutcome where
  | empty : BodyOutcome
  | parsed (j : Json) : BodyOutcome
  | unparseable (text : String) : BodyOutcome

/-- outcome of the single `fetch` call inside `api`: a network failure (the
promise rejected), or a response with its `ok` flag, numeric status and
body. -/
inductive FetchOutcome where
  | networkFailure : FetchOutcome
  | response (ok : Bool) (status : Nat) (body : BodyOutcome) : FetchOutcome

/-- embedding of `data = text ? JSON.parse(text) : {}` with its `catch`:
empty text yields an empty object, parse success yields the value, parse
failure wraps the raw text under `detail`. -/
def dataOf : BodyOutcome → Json
  | .empty => Json.obj []
  | .parsed j => j
  | .unparseable t => Json.obj [("detail", Json.str t)]

/-- embedding of the error-message selection
`data?.detail || data?.message || `HTTP ${status}`` followed by
`new Error(...)` (which applies `String(...)` to its argument). -/
def apiErrMessage (data : Json) (status : Nat) : String :=
  if jsTruthyO (jsField data "detail") then jsToStringO (jsField data "detail")
  else if jsTruthyO (jsField data "message") then jsToStringO (jsField data "message")
  else "HTTP " ++ natStr status

/-- embedding of the `api` helper as a function of the base URL, the page
origin, the request path and the single fetch outcome: `Except.error`
models a thrown `Error` carrying the message, `Except.ok` the returned
parsed data. -/
def apiResult (base origin path : String) : FetchOutcome → Except String Json
  | .networkFailure =>
    .error ("Network error (cannot reach API). Check API URL/CORS. Tried: "
      ++ (if base = "" then origin else base) ++ path)
  | .response ok status body =>
    let data := dataOf body
    if ok then .ok data else .error (apiErrMessage data status)

/-! ### Request construction helpers (src/web/src/api.ts)

Each exported client function builds one HTTP request through the `api`
helper.  A request is captured by its method, its path (query string
included) and its JSON body when one is serialized.  A call whose `init`
carries no `method` is issued by `fetch` as a GET. -/

/-- one HTTP request as built by a client function in `api.ts`. -/
structure ApiRequest where
  method : String
  path : String
  jsonBody : Option Json

/-- embedding of `getContact` (api.ts lines 249-251):
`api(`/properties/${id}/contact`)` with no init, hence a GET. -/
def getContactReq (id : Nat) : ApiRequest :=
  { method := "GET", path := "/properties/" ++ natStr id ++ "/contact", jsonBody := none }

/-- embedding of `adminApprove` (api.ts lines 453-455). -/
def adminApproveReq (id : Nat) : ApiRequest :=
  { method := "POST", path := "/admin/properties/" ++ natStr id ++ "/approve", jsonBody := none }

/-- embedding of `adminReject` (api.ts lines 457-463); `reason` defaults to
the empty string at the TypeScript call boundary. -/
def adminRejectReq (id : Nat) (reason : String) : ApiRequest :=
  { method := "POST", path := "/admin/properties/" ++ natStr id ++ "/reject"
    jsonBody := some (Json.obj [("reason", Json.str reason)]) }

/-- embedding of `adminSuspend` (api.ts lines 465-471). -/
def adminSuspendReq (id : Nat) (reason : String) : ApiRequest :=
  { method := "POST", path := "/admin/properties/" ++ natStr id ++ "/suspend"
    jsonBody := some (Json.obj [("reason", Json.str reason)]) }

/-- embedding of `adminMarkSpam` (api.ts lines 473-479). -/
def adminMarkSpamReq (id : Nat) (reason : String) : ApiRequest :=
  { method := "POST", path := "/admin/properties/" ++ natStr id ++ "/spam"
    jsonBody := some (Json.obj [("reason", Json.str reason)]) }

/-- embedding of `adminApproveUser` (api.ts lines 501-503). -/
def adminApproveUserReq (userId : Nat) : ApiRequest :=
  { method := "POST", path := "/admin/users/" ++ natStr userId ++ "/approve", jsonBody := none }

/-- embedding of `adminSuspendUser` (api.ts lines 493-499). -/
def adminSuspendUserReq (userId : Nat) (reason : String) : ApiRequest :=
  { method := "POST", path := "/admin/users/" ++ natStr userId ++ "/suspend"
    jsonBody := some (Json.obj [("reason", Json.str reason)]) }

/-! ### Percent-encoding

`getSubscriptionSummary` routes its numeric argument through
`encodeURIComponent(String(wd))`; `URLSearchParams.toString()` uses the
`application/x-www-form-urlencoded` serializer.  Both are embedded
byte-faithfully below. -/

/-- uppercase hexadecimal digit for a value below 16. -/
def hexDigitChar (n : Nat) : Char :=
  if n < 10 then Char.ofNat (48 + n) else Char.ofNat (55 + n)

/-- UTF-8 byte sequence of a character, as used by both JavaScript
percent-encoders. -/
def utf8Bytes (c : Char) : List Nat :=
  let n := c.toNat
  if n < 128 then [n]
  else if n < 2048 then [192 + n / 64, 128 + n % 64]
  else if n < 65536 then [224 + n / 4096, 128 + (n / 64) % 64, 128 + n % 64]
  else [240 + n / 262144, 128 + (n / 4096) % 64, 128 + (n / 64) % 64, 128 + n % 64]

/-- percent-escape of one byte: a percent sign and two uppercase hex
digits. -/
def percentByte (b : Nat) : List Char :=
  ['%', hexDigitChar (b / 16), hexDigitChar (b % 16)]

/-- characters `encodeURIComponent` leaves unescaped: ASCII alphanumerics
and `- _ . ! ~ * ( )` and the apostrophe (code point 39). -/
def uriUnreserved (c : Char) : Bool :=
  c.isAlphanum || c = '-' || c = '_' || c = '.' || c = '!' || c = '~' || c = '*'
    || c.toNat = 39 || c = '(' || c = ')'

/-- embedding of JavaScript `encodeURIComponent`. -/
def encodeURIComponent (s : String) : String :=
  (s.data.flatMap fun c => if uriUnreserved c then [c] else (utf8Bytes c).flatMap percentByte).asString

/-- characters the `application/x-www-form-urlencoded` serializer leaves
unescaped: ASCII alphanumerics and `* - . _`. -/
def formUnreserved (c : Char) : Bool :=
  c.isAlphanum || c = '*' || c = '-' || c = '.' || c = '_'

/-- form-urlencoded escape of one character: space becomes a plus sign,
unreserved characters pass through, everything else is percent-escaped. -/
def formEncodeChar (c : Char) : List Char :=
  if c = ' ' then ['+']
  else if formUnreserved c then [c]
  else (utf8Bytes c).flatMap percentByte

/-- form-urlencoded escape of a string, as `URLSearchParams.toString`
applies to each key and value. -/
def formEncode (s : String) : String :=
  (s.data.flatMap formEncodeChar).asString

/-- serialization of a parameter list, as `URLSearchParams.toString`. -/
def renderQuery (ps : List (String × String)) : String :=
  String.intercalate "&" (ps.map fun p => formEncode p.1 ++ "=" ++ formEncode p.2)

/-! ### adminLogs (src/web/src/api.ts lines 557-564)

```ts
export function adminLogs(params?: { entity_type?: string; entity_id?: number; limit?: number }) {
  const sp = new URLSearchParams();
  if (params?.entity_type) sp.set("entity_type", params.entity_type);
  if (params?.entity_id != null) sp.set("entity_id", String(params.entity_id));
  if (params?.limit != null) sp.set("limit", String(params.limit));
  const qs = sp.toString() ? `?${sp.toString()}` : "";
  return api<{ items: any[] }>(`/admin/logs${qs}`);
}
```

`if (params?.entity_type)` is a string-truthiness guard (the empty string
is skipped); the two numeric guards compare loosely against `null`, so
they admit every provided number including zero.  The three `set` calls
target distinct keys, so the serialized order is exactly the call
order. -/

/-- parameter list built by `adminLogs`. -/
def adminLogsParams (entity_type : Option String) (entity_id : Option Int)
    (lim : Option Int) : List (String × String) :=
  (match entity_type with
    | some s => if s = "" then [] else [("entity_type", s)]
    | none => [])
  ++ (match entity_id with
    | some n => [("entity_id", intStr n)]
    | none => [])
  ++ (match lim with
    | some n => [("limit", intStr n)]
    | none => [])

/-- full request path built by `adminLogs`. -/
def adminLogsPath (entity_type : Option String) (entity_id : Option Int)
    (lim : Option Int) : String :=
  let qs := renderQuery (adminLogsParams entity_type entity_id lim)
  "/admin/logs" ++ (if qs = "" then "" else "?" ++ qs)

/-! ### getSubscriptionSummary (src/web/src/api.ts lines 261-272) and its
use on the subscription page (SubscriptionPage.tsx line 30)

```ts
export function getSubscriptionSummary(params?: { window_days?: number }) {
  const wd = params?.window_days ?? 30;
  return api<...>(`/me/subscription/summary?window_days=${encodeURIComponent(String(wd))}`);
}
```

The page calls `getSubscriptionSummary({ window_days: 30 })`. -/

/-- request path built by `getSubscriptionSummary`; `none` models a call
without a `window_days` argument (nullish coalescing picks 30). -/
def getSubscriptionSummaryPath (window_days : Option Int) : String :=
  "/me/subscription/summary?window_days="
    ++ encodeURIComponent (intStr (window_days.getD 30))

/-- request path issued by the subscription page, which passes
`{ window_days: 30 }`. -/
def subscriptionPageSummaryPath : String :=
  getSubscriptionSummaryPath (some 30)

/-- embedding of the full `getSubscriptionSummary` request: the function
calls `api` with no init, so `fetch` issues a GET with no body. -/
def getSubscriptionSummaryReq (window_days : Option Int) : ApiRequest :=
  { method := "GET", path := getSubscriptionSummaryPath window_days, jsonBody := none }

/-- request issued by the subscription page (SubscriptionPage.tsx line 30,
`getSubscriptionSummary({ window_days: 30 })`). -/
def subscriptionPageSummaryReq : ApiRequest :=
  getSubscriptionSummaryReq (some 30)

/-! ### AdminUsersPage (src/web/src/pages/AdminUsersPage.tsx)

```ts
const activeUserStatus = String(activeUser?.approval_status || "").toLowerCase();
const isSuspended = activeUserStatus === "suspended";
...
{isSuspended ? <button onClick={... adminApproveUser(activeUserId) ...}>Enable user</button>
             : <button onClick={... adminSuspendUser(activeUserId, reason) ...}>Disable user</button>}
```

The page renders exactly one of the two buttons, so for a selected user
exactly one of `adminApproveUser` / `adminSuspendUser` can be invoked, and
which one is a pure function of `activeUser`. -/

/-- lowercasing as `String.prototype.toLowerCase` (the statuses compared
are ASCII, where `Char.toLower` agrees with JavaScript). -/
def jsToLower (s : String) : String :=
  (s.data.map Char.toLower).asString

/-- embedding of `activeUserStatus` (AdminUsersPage.tsx line 51); the
receiver is `none` while no user is loaded. -/
def activeUserStatus (activeUser : Option Json) : String :=
  jsToLower (jsToString (jsOrElse (activeUser.bind fun j => jsField j "approval_status") (Json.str "")))

/-- embedding of `isSuspended` (AdminUsersPage.tsx line 52). -/
def isSuspended (activeUser : Option Json) : Bool :=
  activeUserStatus activeUser == "suspended"

/-- the two user-moderation endpoints the page can invoke. -/
inductive UserModerationCall where
  | approveUser : UserModerationCall
  | suspendUser : UserModerationCall
deriving DecidableEq

/-- which endpoint the rendered button invokes for the selected user
(AdminUsersPage.tsx lines 177-210): the Enable button calls
`adminApproveUser` exactly when `isSuspended`, the Disable button calls
`adminSuspendUser` otherwise. -/
def adminUserButtonCall (activeUser : Option Json) : UserModerationCall :=
  if isSuspended activeUser then .approveUser else .suspendUser

/-! ### SQL reference schema (src/unnamed/part_019)

```sql
CREATE TABLE user_subscriptions (
    id UUID PRIMARY KEY DEFAULT gen_random_uuid(),
    user_id UUID REFERENCES users(id),
    plan_id TEXT REFERENCES subscription_plans(id),
    purchase_token TEXT UNIQUE NOT NULL,
    start_time TIMESTAMP NOT NULL,
    end_time TIMESTAMP NOT NULL,
    active BOOLEAN DEFAULT true,
    created_at TIMESTAMP DEFAULT NOW()
);

CREATE TABLE contact_usage (
    id UUID PRIMARY KEY DEFAULT gen_random_uuid(),
    user_id UUID REFERENCES users(id),
    listing_id UUID,
    used_at TIMESTAMP DEFAULT NOW()
);
```

Columns without `NOT NULL` are nullable and modelled with `Option`;
UUIDs are modelled as strings and timestamps as integers.  A table state
is the list of its rows; the well-formedness predicate of each table
collects exactly the declared constraints: primary-key uniqueness, the
declared `UNIQUE` columns, and the foreign-key references (against the
key sets of the referenced tables). -/

/-- one row of `user_subscriptions`. -/
structure UserSubscriptionRow where
  id : String
  user_id : Option String
  plan_id : Option String
  purchase_token : String
  start_time : Int
  end_time : Int
  active : Bool
  created_at : Int
deriving DecidableEq

/-- the constraints declared on `user_subscriptions`: `id` is the primary
key, `purchase_token` is `UNIQUE NOT NULL` (non-nullness is carried by the
field type), `user_id` and `plan_id` reference existing keys. -/
def userSubscriptionsOk (userIds planIds : List String)
    (rows : List UserSubscriptionRow) : Prop :=
  rows.Pairwise (fun a b => a.id ≠ b.id) ∧
  rows.Pairwise (fun a b => a.purchase_token ≠ b.purchase_token) ∧
  (∀ r ∈ rows, ∀ u, r.user_id = some u → u ∈ userIds) ∧
  (∀ r ∈ rows, ∀ p, r.plan_id = some p → p ∈ planIds)

/-- one row of `contact_usage`. -/
structure ContactUsageRow where
  id : String
  user_id : Option String
  listing_id : Option String
  used_at : Int
deriving DecidableEq

/-- the constraints declared on `contact_usage`: `id` is the primary key
and `user_id` references an existing user.  The schema declares no other
constraint — in particular none mentioning `(user_id, listing_id)`. -/
def contactUsageOk (userIds : List String) (rows : List ContactUsageRow) : Prop :=
  rows.Pairwise (fun a b => a.id ≠ b.id) ∧
  (∀ r ∈ rows, ∀ u, r.user_id = some u → u ∈ userIds)

/-- Stated from the spec: the `(user_id, listing_id)` pair is unique
across the `contact_usage` table (the invariant the claim asserts the
schema enforces). -/
def contactPairUnique (rows : List ContactUsageRow) : Prop :=
  rows.Pairwise (fun a b => ¬ (a.user_id = b.user_id ∧ a.listing_id = b.listing_id))

/-- Stated from the amended claim for the api error path: the thrown
message is the `detail` field when present and truthy, else the `message`
field when present and truthy, else the literal `HTTP <status>`. -/
def apiErrMessageSpec (detail message : Option Json) (status : Nat) : String :=
  match detail with
  | some d =>
    if jsTruthy d then jsToString d
    else match message with
      | some m => if jsTruthy m then jsToString m else "HTTP " ++ natStr status
      | none => "HTTP " ++ natStr status
  | none =>
    match message with
    | some m => if jsTruthy m then jsToString m else "HTTP " ++ natStr status
    | none => "HTTP " ++ natStr status

/-! ### formatPriceDisplay (src/web/src/api.ts lines 78-83)

```ts
export function formatPriceDisplay(value: any): string {
  const raw = String(value ?? "").trim();
  if (!raw) return "";
  if (/^rs\.?\s+/i.test(raw) || /^â‚¹\s*/.test(raw)) return raw;
  return `Rs ${raw}`;
}
```

The second regular expression, as committed in the repository (bytes
C3 A2 E2 80 9A C2 B9), literally contains the three characters U+00E2,
U+201A, U+00B9 — a double-encoded (mojibake) rupee sign, not the single
rupee sign U+20B9 — and the embedding reproduces exactly that
three-character prefix test.  For a string argument `String(value)` is
the identity, so the embedding is a function on strings, carried out on
character lists.  `trim` and `\s` agree on the JavaScript white-space
set, embedded as `jsSpace`. -/

/-- the JavaScript white-space set shared by `String.prototype.trim` and
the regular-expression class `\s`: tab through carriage return, space,
NBSP, the Ogham space mark, the Unicode space separators U+2000..U+200A,
the line and paragraph separators, the narrow and medium mathematical
spaces, the ideographic space and the BOM. -/
def jsSpace (c : Char) : Bool :=
  (9 ≤ c.toNat && c.toNat ≤ 13) || c.toNat = 32 || c.toNat = 160 || c.toNat = 5760
    || (8192 ≤ c.toNat && c.toNat ≤ 8202) || c.toNat = 8232 || c.toNat = 8233
    || c.toNat = 8239 || c.toNat = 8287 || c.toNat = 12288 || c.toNat = 65279

/-- embedding of `String.prototype.trim` on a character list: drop
white space from both ends. -/
def trimList (l : List Char) : List Char :=
  (((l.dropWhile jsSpace).reverse).dropWhile jsSpace).reverse

/-- test that a character list begins with a white-space character (the
`\s+` tail of the first regular expression needs at least one). -/
def headSpace : List Char → Bool
  | [] => false
  | c :: _ => jsSpace c

/-- continuation of `/^rs\.?\s+/i` after the `rs`: an optional dot, then
at least one white-space character.  When the next character is a dot the
expression must find white space after it; backtracking to the empty
match of `\.?` would require the dot itself to be white space, which it is
not, so the first arm is exact. -/
def rsDotSpace : List Char → Bool
  | '.' :: rest => headSpace rest
  | l => headSpace l

/-- embedding of `/^rs\.?\s+/i.test`: a case-insensitive `rs`, an optional
dot, then at least one white-space character. -/
def rsTest : List Char → Bool
  | c1 :: c2 :: rest => c1.toLower = 'r' && c2.toLower = 's' && rsDotSpace rest
  | _ => false

/-- embedding of the second test of the source, whose regular expression
literally holds the three-character mojibake sequence U+00E2 U+201A
U+00B9 followed by `\s*`: since `\s*` matches the empty string, the test
holds exactly when the list begins with those three characters. -/
def rupeeTest : List Char → Bool
  | c1 :: c2 :: c3 :: _ => c1.toNat = 226 && c2.toNat = 8218 && c3.toNat = 185
  | _ => false

/-- Stated from the claim: a test that a string begins with the actual
rupee sign U+20B9 — what the claim calls "the rupee-symbol prefix".  The
program's own test (`rupeeTest`) looks for the mojibake sequence instead,
so the two accept different strings. -/
def rupeeSignTest : List Char → Bool
  | c :: _ => c.toNat = 8377
  | [] => false

/-- embedding of `formatPriceDisplay` on the character list of a string
argument (`raw` of the source is `trimList l`). -/
def formatPriceList (l : List Char) : List Char :=
  if trimList l = [] then []
  else if rsTest (trimList l) || rupeeTest (trimList l) then trimList l
  else 'R' :: 's' :: ' ' :: trimList l

/-- embedding of `formatPriceDisplay` for a string argument. -/
def formatPriceDisplay (s : String) : String :=
  (formatPriceList s.data).asString

/-- the four admin listing-moderation actions. -/
inductive ListingModerationAction where
  | approve : ListingModerationAction
  | reject : ListingModerationAction
  | suspend : ListingModerationAction
  | spam : ListingModerationAction
deriving DecidableEq

/-- path segment naming each listing-moderation action. -/
def listingModerationActionName : ListingModerationAction → String
  | .approve => "approve"
  | .reject => "reject"
  | .suspend => "suspend"
  | .spam => "spam"

/-- the request each listing-moderation client function builds (the
approve action sends no body; the others serialize `{reason}`). -/
def listingModerationReq : ListingModerationAction → Nat → String → ApiRequest
  | .approve, id, _ => adminApproveReq id
  | .reject, id, reason => adminRejectReq id reason
  | .suspend, id, reason => adminSuspendReq id reason
  | .spam, id, reason => adminMarkSpamReq id reason

/-! ## Theorems -/

/-- C10: for every outcome of parsing the persisted session store —
including a parse failure on malformed JSON — `getSession` returns a
record (it is a total function), its token is the empty string on any
parse failure, and `guest` is `true` only when the stored `guest` flag is
truthy and the token is empty. -/
theorem getSession_total_guest_invariant :
    (∀ p : Except Unit Json,
      (getSession p).guest = true →
        (getSession p).token = "" ∧
          ∃ raw, p = Except.ok raw ∧ jsTruthyO (jsField raw "guest") = true) ∧
    (∀ e : Unit, (getSession (Except.error e)).token = "" ∧
      (getSession (Except.error e)).guest = false) := by
  constructor
  · intro p hg
    match p with
    | .error e => simp [getSession] at hg
    | .ok raw =>
      refine ⟨?_, raw, rfl, ?_⟩
      · have h := hg
        simp only [getSession, Bool.and_eq_true, decide_eq_true_eq] at h
        simpa [getSession] using h.2
      · have h := hg
        simp only [getSession, Bool.and_eq_true, decide_eq_true_eq] at h
        exact h.1
  · intro e
    exact ⟨rfl, rfl⟩

/-- C10 witness: at the concrete parsed store `{"guest": true}` the guard
of the theorem is satisfied and the conclusions evaluate as stated. -/
theorem getSession_total_guest_invariant_witness :
    (getSession (Except.ok (Json.obj [("guest", Json.bool true)]))).token = "" ∧
      ∃ raw, (Except.ok (Json.obj [("guest", Json.bool true)]) : Except Unit Json) = Except.ok raw ∧
        jsTruthyO (jsField raw "guest") = true :=
  getSession_total_guest_invariant.1 (Except.ok (Json.obj [("guest", Json.bool true)])) rfl

/-- helper: associativity of string append, proved through the underlying
character lists. -/
theorem strAppendAssoc (a b c : String) : a ++ b ++ c = a ++ (b ++ c) := by
  apply String.ext
  simp [List.append_assoc]

/-- C1: the reference schema of `contact_usage` declares only a primary key
on `id` (and a foreign key on `user_id`); it therefore admits two distinct
rows with the same `(user_id, listing_id)` pair.  At the concrete
two-insert input below every declared constraint holds, yet the pair
appears twice — the claimed uniqueness constraint is absent from the
code. -/
theorem contactUsage_schema_admits_duplicate_pair :
    contactUsageOk ["u1"]
      [{ id := "id1", user_id := some "u1", listing_id := some "l1", used_at := 0 },
       { id := "id2", user_id := some "u1", listing_id := some "l1", used_at := 1 }] ∧
    ¬ contactPairUnique
      [{ id := "id1", user_id := some "u1", listing_id := some "l1", used_at := 0 },
       { id := "id2", user_id := some "u1", listing_id := some "l1", used_at := 1 }] := by
  constructor
  · constructor
    · simp [List.pairwise_cons]
    · intro r hr u hu
      simp only [List.mem_cons, List.mem_singleton] at hr
      rcases hr with h | h | h
      · subst h; simp_all
      · subst h; simp_all
      · simp at h
  · intro h
    have := (List.pairwise_cons.mp h).1
      { id := "id2", user_id := some "u1", listing_id := some "l1", used_at := 1 } (by simp)
    exact this ⟨rfl, rfl⟩

/-- C2: in any `user_subscriptions` table state satisfying the declared
schema constraints, rows at two distinct positions carry distinct
`purchase_token` values, and prepending a row whose token already occurs
in the table violates the schema (the insert is rejected). -/
theorem purchaseToken_unique (userIds planIds : List String)
    (rows : List UserSubscriptionRow)
    (h : userSubscriptionsOk userIds planIds rows) :
    (∀ i j : Fin rows.length, i ≠ j →
      (rows.get i).purchase_token ≠ (rows.get j).purchase_token) ∧
    (∀ r ∈ rows, ∀ newRow : UserSubscriptionRow,
      newRow.purchase_token = r.purchase_token →
        ¬ userSubscriptionsOk userIds planIds (newRow :: rows)) := by
  constructor
  · intro i j hij
    have hp := List.pairwise_iff_get.mp h.2.1
    rcases lt_or_gt_of_ne (fun hv => hij (Fin.ext hv)) with hlt | hgt
    · exact hp i j hlt
    · exact fun he => hp j i hgt he.symm
  · intro r hr newRow htok hok
    have := (List.pairwise_cons.mp hok.2.1).1 r hr
    exact this htok

/-- C2 witness: the theorem applied to a concrete well-formed two-row
table, at the two distinct positions. -/
theorem purchaseToken_unique_witness :
    ({ id := "a", user_id := none, plan_id := none, purchase_token := "t1",
       start_time := 0, end_time := 1, active := true, created_at := 0 } : UserSubscriptionRow).purchase_token ≠
    ({ id := "b", user_id := none, plan_id := none, purchase_token := "t2",
       start_time := 0, end_time := 1, active := true, created_at := 0 } : UserSubscriptionRow).purchase_token := by
  have h := purchaseToken_unique [] []
    [{ id := "a", user_id := none, plan_id := none, purchase_token := "t1",
       start_time := 0, end_time := 1, active := true, created_at := 0 },
     { id := "b", user_id := none, plan_id := none, purchase_token := "t2",
       start_time := 0, end_time := 1, active := true, created_at := 0 }]
    (by refine ⟨?_, ?_, ?_, ?_⟩ <;> simp [List.pairwise_cons])
  exact h.1 ⟨0, by decide⟩ ⟨1, by decide⟩ (by decide)

/-- C3 counterexample: a selected user whose stored `approval_status` is
the string `Suspended` makes the page wire the Enable button (invoking
`adminApproveUser`), although that status does not equal `suspended` — the
page compares after lowercasing, so the claim as stated fails at this
input. -/
theorem adminUserButton_case_counterexample :
    adminUserButtonCall (some (Json.obj [("approval_status", Json.str "Suspended")])) =
      UserModerationCall.approveUser ∧
    ("Suspended" : String) ≠ "suspended" := by
  exact ⟨rfl, by decide⟩

/-- C3 amended: the page invokes `adminApproveUser` for the selected user
exactly when the lowercased string form of the user's `approval_status`
(missing or falsy values mapped to the empty string) equals `suspended`,
and `adminSuspendUser` exactly otherwise. -/
theorem adminUserButton_dispatch (activeUser : Option Json) :
    (adminUserButtonCall activeUser = UserModerationCall.approveUser ↔
      activeUserStatus activeUser = "suspended") ∧
    (adminUserButtonCall activeUser = UserModerationCall.suspendUser ↔
      activeUserStatus activeUser ≠ "suspended") := by
  unfold adminUserButtonCall isSuspended
  by_cases h : activeUserStatus activeUser = "suspended" <;>
    simp [h]

/-- C4 counterexample: the moderation client functions do not target the
`/admin/listings/...` resource — at listing id 7 the approve request path
differs from the claimed one. -/
theorem adminApprove_not_listings_path :
    (adminApproveReq 7).path ≠ "/admin/listings/7/approve" := by
  decide

/-- C4 amended: every admin listing-moderation client call (approve,
reject, suspend, spam) on listing id `N` issues a POST whose path is
`/admin/properties/N/<action>`, and a successful `200 {ok:true}` response
is returned to the caller as that object. -/
theorem adminListingModeration_requests (a : ListingModerationAction)
    (id : Nat) (reason : String) :
    (listingModerationReq a id reason).method = "POST" ∧
    (listingModerationReq a id reason).path =
      "/admin/properties/" ++ natStr id ++ "/" ++ listingModerationActionName a ∧
    (∀ base origin path status,
      apiResult base origin path
          (FetchOutcome.response true status (BodyOutcome.parsed (Json.obj [("ok", Json.bool true)]))) =
        Except.ok (Json.obj [("ok", Json.bool true)])) := by
  refine ⟨?_, ?_, fun base origin path status => rfl⟩
  · cases a <;> rfl
  · cases a <;>
      simp only [listingModerationReq, adminApproveReq, adminRejectReq, adminSuspendReq,
        adminMarkSpamReq, listingModerationActionName, strAppendAssoc] <;> rfl

/-- C5 counterexample: the contact-disclosure client function does not
target the `/listings/...` resource — at listing id 7 its request path
differs from the claimed one. -/
theorem getContact_not_listings_path :
    (getContactReq 7).path ≠ "/listings/7/contact" := by
  decide

/-- C5 amended: the contact disclosure request for listing id `N` is a GET
to `/properties/N/contact`; on success (an ok response) the parsed
contact fields are returned to the caller unchanged, and a denial — a
non-ok response whose JSON body carries the denial reason under `detail`
(such as `403 Denied(reason)`) — surfaces to the caller as a thrown error
carrying exactly that reason. -/
theorem getContact_request_and_denial (id : Nat) (base origin reason : String) :
    (getContactReq id).method = "GET" ∧
    (getContactReq id).path = "/properties/" ++ natStr id ++ "/contact" ∧
    (∀ fields : Json,
      apiResult base origin (getContactReq id).path
          (FetchOutcome.response true 200 (BodyOutcome.parsed fields)) =
        Except.ok fields) ∧
    (reason ≠ "" →
      apiResult base origin (getContactReq id).path
          (FetchOutcome.response false 403 (BodyOutcome.parsed (Json.obj [("detail", Json.str reason)]))) =
        Except.error reason) := by
  refine ⟨rfl, rfl, fun fields => rfl, fun h => ?_⟩
  have hf : jsField (Json.obj [("detail", Json.str reason)]) "detail" = some (Json.str reason) := rfl
  simp [apiResult, dataOf, apiErrMessage, hf, jsTruthyO, jsTruthy, jsToStringO, jsToString, h]

/-- C5 witness: the theorem applied at listing id 5 with the concrete
denial reason `QuotaExceeded`, its guard discharged by evaluation. -/
theorem getContact_request_and_denial_witness :
    (getContactReq 5).method = "GET" ∧
    (getContactReq 5).path = "/properties/5/contact" ∧
    apiResult "" "http://app" (getContactReq 5).path
        (FetchOutcome.response true 200 (BodyOutcome.parsed (Json.obj [("contact_phone", Json.str "9999")]))) =
      Except.ok (Json.obj [("contact_phone", Json.str "9999")]) ∧
    apiResult "" "http://app" (getContactReq 5).path
        (FetchOutcome.response false 403 (BodyOutcome.parsed (Json.obj [("detail", Json.str "QuotaExceeded")]))) =
      Except.error "QuotaExceeded" := by
  obtain ⟨h1, h2, h3, h4⟩ := getContact_request_and_denial 5 "" "http://app" "QuotaExceeded"
  exact ⟨h1, h2, h3 (Json.obj [("contact_phone", Json.str "9999")]), h4 (by decide)⟩

/-- helper: the error-message selection of `api` coincides with the
spec-side selection stated over the two extracted fields. -/
theorem apiErrMessage_eq_spec (data : Json) (status : Nat) :
    apiErrMessage data status =
      apiErrMessageSpec (jsField data "detail") (jsField data "message") status := by
  unfold apiErrMessage apiErrMessageSpec
  cases hd : jsField data "detail" <;> cases hm : jsField data "message" <;>
    simp [jsTruthyO, jsToStringO]

/-- C6 counterexample: a 400 response whose body carries a present but
empty `detail` field together with `message = "boom"` is thrown as
`boom`, not as the (empty) `detail` — the claimed "detail if present"
selection fails at this input because the code tests truthiness, under
which the empty string loses. -/
theorem api_empty_detail_counterexample :
    apiResult "" "http://app" "/p"
        (FetchOutcome.response false 400
          (BodyOutcome.parsed (Json.obj [("detail", Json.str ""), ("message", Json.str "boom")]))) =
      Except.error "boom" ∧
    ("boom" : String) ≠ "" := by
  exact ⟨rfl, by decide⟩

/-- C6 amended: the api helper performs exactly one fetch per call (the
embedding consumes a single fetch outcome; the source has no retry
construct); every non-ok response throws an error whose message is the
server `detail` field when present and truthy (for strings: non-empty),
else the `message` field when present and truthy, else the literal
`HTTP <status>`; and a network failure throws an error rather than being
retried. -/
theorem api_no_retry_error_verbatim (base origin path : String)
    (status : Nat) (body : BodyOutcome) :
    apiResult base origin path (FetchOutcome.response false status body) =
      Except.error
        (apiErrMessageSpec (jsField (dataOf body) "detail")
          (jsField (dataOf body) "message") status) ∧
    apiResult base origin path FetchOutcome.networkFailure =
      Except.error ("Network error (cannot reach API). Check API URL/CORS. Tried: "
        ++ (if base = "" then origin else base) ++ path) ∧
    (∀ j, apiResult base origin path (FetchOutcome.response true status (BodyOutcome.parsed j)) =
      Except.ok j) := by
  refine ⟨?_, rfl, fun j => rfl⟩
  show Except.error (apiErrMessage (dataOf body) status) = _
  rw [apiErrMessage_eq_spec]

/-- C7 counterexample: calling `adminLogs` with a provided but empty
`entity_type` omits that parameter from the query entirely — the claimed
"included if and only if provided" fails at this input (the code guards
the string parameter by truthiness). -/
theorem adminLogs_empty_entity_type_dropped :
    (some "" : Option String).isSome = true ∧
    adminLogsParams (some "") (some 4) (some 50) = [("entity_id", "4"), ("limit", "50")] ∧
    (∀ v, ("entity_type", v) ∉ adminLogsParams (some "") (some 4) (some 50)) := by
  refine ⟨rfl, by decide, ?_⟩
  intro v hv
  simp [adminLogsParams] at hv

/-- C7 amended: the `adminLogs` query carries at most the three parameters
`entity_type`, `entity_id` and `limit`, and no others; `entity_type` is
included exactly when it is provided and non-empty, while `entity_id`
(rendered as its decimal string) and `limit` are included exactly when
provided. -/
theorem adminLogs_params_exact (et : Option String) (ei lim : Option Int) :
    ((∃ v, ("entity_type", v) ∈ adminLogsParams et ei lim) ↔ ∃ s, et = some s ∧ s ≠ "") ∧
    ((∃ v, ("entity_id", v) ∈ adminLogsParams et ei lim) ↔ ei.isSome) ∧
    ((∃ v, ("limit", v) ∈ adminLogsParams et ei lim) ↔ lim.isSome) ∧
    (∀ n, ei = some n → ("entity_id", intStr n) ∈ adminLogsParams et ei lim) ∧
    (∀ n, lim = some n → ("limit", intStr n) ∈ adminLogsParams et ei lim) ∧
    (∀ kv ∈ adminLogsParams et ei lim,
      kv.1 = "entity_type" ∨ kv.1 = "entity_id" ∨ kv.1 = "limit") := by
  rcases et with _ | s
  · rcases ei with _ | n <;> rcases lim with _ | m <;>
      simp [adminLogsParams]
  · by_cases hs : s = "" <;>
      rcases ei with _ | n <;> rcases lim with _ | m <;>
      simp [adminLogsParams, hs]

/-- helper: decimal digit characters are left unescaped by
`encodeURIComponent`. -/
theorem digitChar_uriUnreserved {d : Nat} (h : d < 10) :
    uriUnreserved (Nat.digitChar d) = true := by
  interval_cases d <;> decide

/-- helper: every character produced by `Nat.toDigitsCore` at base 10 over
an unreserved accumulator is unreserved. -/
theorem toDigitsCore_uriUnreserved :
    ∀ (fuel n : Nat) (acc : List Char),
      (∀ c ∈ acc, uriUnreserved c = true) →
      ∀ c ∈ Nat.toDigitsCore 10 fuel n acc, uriUnreserved c = true := by
  intro fuel
  induction fuel with
  | zero =>
    intro n acc hacc c hc
    simp only [Nat.toDigitsCore] at hc
    exact hacc c hc
  | succ f ih =>
    intro n acc hacc c hc
    simp only [Nat.toDigitsCore] at hc
    by_cases h0 : n / 10 = 0
    · rw [if_pos h0] at hc
      rcases List.mem_cons.mp hc with h | h
      · subst h
        exact digitChar_uriUnreserved (Nat.mod_lt _ (by decide))
      · exact hacc c h
    · rw [if_neg h0] at hc
      refine ih (n / 10) _ ?_ c hc
      intro c' hc'
      rcases List.mem_cons.mp hc' with h | h
      · subst h
        exact digitChar_uriUnreserved (Nat.mod_lt _ (by decide))
      · exact hacc c' h

/-- helper: every character of the decimal rendering of an integer is
unescaped by `encodeURIComponent` (digits and the minus sign). -/
theorem intStr_uriUnreserved (i : Int) :
    ∀ c ∈ (intStr i).data, uriUnreserved c = true := by
  cases i with
  | ofNat m =>
    intro c hc
    have hd : (intStr (Int.ofNat m)).data = Nat.toDigitsCore 10 (m + 1) m [] := rfl
    rw [hd] at hc
    exact toDigitsCore_uriUnreserved (m + 1) m [] (by simp) c hc
  | negSucc m =>
    intro c hc
    have hd : (intStr (Int.negSucc m)).data = '-' :: (natStr (m + 1)).data := rfl
    rw [hd] at hc
    rcases List.mem_cons.mp hc with h | h
    · subst h; decide
    · have hn : (natStr (m + 1)).data = Nat.toDigitsCore 10 (m + 2) (m + 1) [] := rfl
      rw [hn] at h
      exact toDigitsCore_uriUnreserved (m + 2) (m + 1) [] (by simp) c h

/-- helper: the encoder is the identity on a list of unreserved
characters. -/
theorem flatMap_id_of_uriUnreserved :
    ∀ (l : List Char), (∀ c ∈ l, uriUnreserved c = true) →
      (l.flatMap fun c => if uriUnreserved c then [c] else (utf8Bytes c).flatMap percentByte) = l := by
  intro l h
  induction l with
  | nil => rfl
  | cons a t ih =>
    simp only [List.flatMap_cons]
    rw [if_pos (h a (by simp))]
    rw [ih (fun c hc => h c (by simp [hc]))]
    rfl

/-- helper: `encodeURIComponent` is the identity on strings of unreserved
characters. -/
theorem encodeURIComponent_eq_self {s : String}
    (h : ∀ c ∈ s.data, uriUnreserved c = true) :
    encodeURIComponent s = s := by
  unfold encodeURIComponent
  rw [flatMap_id_of_uriUnreserved s.data h]
  cases s
  rfl

/-- C8: the subscription summary request is a GET whose path carries
`window_days=N` in decimal where `N` is the caller-supplied value when one
is provided and 30 otherwise, and the subscription page's own call always
issues the GET for the 30-day window. -/
theorem subscriptionSummary_window (wd : Option Int) :
    (getSubscriptionSummaryReq wd).method = "GET" ∧
    (getSubscriptionSummaryReq wd).path =
      "/me/subscription/summary?window_days=" ++ intStr (wd.getD 30) ∧
    subscriptionPageSummaryReq.method = "GET" ∧
    subscriptionPageSummaryReq.path = "/me/subscription/summary?window_days=30" := by
  refine ⟨rfl, ?_, rfl, rfl⟩
  show getSubscriptionSummaryPath wd = _
  unfold getSubscriptionSummaryPath
  rw [encodeURIComponent_eq_self (intStr_uriUnreserved (wd.getD 30))]

/-- helper: the first element surviving `dropWhile jsSpace` is not white
space. -/
theorem dropWhile_jsSpace_head {l : List Char} {c : Char} {cs : List Char}
    (h : List.dropWhile jsSpace l = c :: cs) : jsSpace c = false := by
  induction l with
  | nil => simp at h
  | cons a t ih =>
    rw [List.dropWhile_cons] at h
    by_cases ha : jsSpace a = true
    · rw [if_pos ha] at h
      exact ih h
    · rw [if_neg ha] at h
      injection h with h1 h2
      subst h1
      simpa using ha

/-- helper: a list whose head is not white space is unchanged by
`dropWhile jsSpace`. -/
theorem dropWhile_jsSpace_eq_self {l : List Char}
    (h : ∀ c cs, l = c :: cs → jsSpace c = false) :
    List.dropWhile jsSpace l = l := by
  cases l with
  | nil => rfl
  | cons a t =>
    rw [List.dropWhile_cons, if_neg]
    simp [h a t rfl]

/-- helper: a list not beginning or ending in white space is unchanged by
`trimList`. -/
theorem trimList_eq_self {l : List Char}
    (h1 : ∀ c cs, l = c :: cs → jsSpace c = false)
    (h2 : ∀ c cs, l.reverse = c :: cs → jsSpace c = false) :
    trimList l = l := by
  unfold trimList
  rw [dropWhile_jsSpace_eq_self h1, dropWhile_jsSpace_eq_self h2, List.reverse_reverse]

/-- helper: the last character of a trimmed list is not white space. -/
theorem trimList_last {l : List Char} {c : Char} {cs : List Char}
    (h : (trimList l).reverse = c :: cs) : jsSpace c = false := by
  unfold trimList at h
  rw [List.reverse_reverse] at h
  exact dropWhile_jsSpace_head h

/-- helper: the first character of a trimmed list is not white space. -/
theorem trimList_head {l : List Char} {c : Char} {cs : List Char}
    (h : trimList l = c :: cs) : jsSpace c = false := by
  have hB : (List.dropWhile jsSpace l).reverse.dropWhile jsSpace = (c :: cs).reverse := by
    unfold trimList at h
    rw [← h, List.reverse_reverse]
  have hTB : ((List.dropWhile jsSpace l).reverse.takeWhile jsSpace)
      ++ ((List.dropWhile jsSpace l).reverse.dropWhile jsSpace)
      = (List.dropWhile jsSpace l).reverse :=
    List.takeWhile_append_dropWhile jsSpace (List.dropWhile jsSpace l).reverse
  have hA : List.dropWhile jsSpace l
      = c :: (cs ++ ((List.dropWhile jsSpace l).reverse.takeWhile jsSpace).reverse) := by
    conv_lhs => rw [← List.reverse_reverse (List.dropWhile jsSpace l), ← hTB]
    rw [List.reverse_append, hB, List.reverse_reverse]
    rfl
  exact dropWhile_jsSpace_head hA

/-- helper: `trimList` is idempotent. -/
theorem trimList_trim (l : List Char) : trimList (trimList l) = trimList l :=
  trimList_eq_self (fun _ _ h => trimList_head h) (fun _ _ h => trimList_last h)

/-- helper: a list of white space trims to the empty list. -/
theorem trimList_eq_nil_of_all {l : List Char} (h : ∀ c ∈ l, jsSpace c = true) :
    trimList l = [] := by
  have h1 : List.dropWhile jsSpace l = [] := by
    induction l with
    | nil => rfl
    | cons a t ih =>
      rw [List.dropWhile_cons, if_pos (h a (by simp))]
      exact ih fun c hc => h c (by simp [hc])
  unfold trimList
  rw [h1]
  rfl

/-- helper: a list beginning with the rendered `Rs ` prefix passes the
`/^rs\.?\s+/i` test. -/
theorem rsTest_rendered (raw : List Char) : rsTest ('R' :: 's' :: ' ' :: raw) = true := by
  rfl

/-- helper: the output of `formatPriceList`, when rendered from the third
branch, is already trimmed. -/
theorem trimList_rendered {l : List Char} (h0 : trimList l ≠ []) :
    trimList ('R' :: 's' :: ' ' :: trimList l) = 'R' :: 's' :: ' ' :: trimList l := by
  apply trimList_eq_self
  · intro c cs hc
    injection hc with h1 _
    subst h1
    rfl
  · intro c cs hc
    have hrev : ('R' :: 's' :: ' ' :: trimList l).reverse
        = (trimList l).reverse ++ [' ', 's', 'R'] := by
      simp
    cases hr : (trimList l).reverse with
    | nil =>
      exact absurd (by simpa using congrArg List.reverse hr) h0
    | cons c0 cs0 =>
      rw [hrev, hr] at hc
      injection hc with h1 _
      subst h1
      exact trimList_last hr

/-- helper: `formatPriceList` is idempotent. -/
theorem formatPriceList_idem (l : List Char) :
    formatPriceList (formatPriceList l) = formatPriceList l := by
  by_cases h0 : trimList l = []
  · have hfl : formatPriceList l = [] := by rw [formatPriceList, if_pos h0]
    rw [hfl, formatPriceList]
    rfl
  · by_cases h1 : (rsTest (trimList l) || rupeeTest (trimList l)) = true
    · have hfl : formatPriceList l = trimList l := by
        rw [formatPriceList, if_neg h0, if_pos h1]
      rw [hfl, formatPriceList, trimList_trim, if_neg h0, if_pos h1]
    · have hfl : formatPriceList l = 'R' :: 's' :: ' ' :: trimList l := by
        rw [formatPriceList, if_neg h0, if_neg h1]
      rw [hfl, formatPriceList, trimList_rendered h0]
      rw [if_neg (by simp), if_pos (by simp [rsTest_rendered])]

/-- helper: every non-empty output of `formatPriceList` passes one of the
two prefix tests. -/
theorem formatPriceList_prefixTest {l : List Char} (h : formatPriceList l ≠ []) :
    (rsTest (formatPriceList l) || rupeeTest (formatPriceList l)) = true := by
  by_cases h0 : trimList l = []
  · exact absurd (by rw [formatPriceList, if_pos h0]) h
  · by_cases h1 : (rsTest (trimList l) || rupeeTest (trimList l)) = true
    · rw [formatPriceList, if_neg h0, if_pos h1]
      exact h1
    · rw [formatPriceList, if_neg h0, if_neg h1]
      simp [rsTest_rendered]

/-- helper: a white-space-only argument maps to the empty list. -/
theorem formatPriceList_all_space {l : List Char} (h : ∀ c ∈ l, jsSpace c = true) :
    formatPriceList l = [] := by
  rw [formatPriceList, if_pos (trimList_eq_nil_of_all h)]

/-- C9 amended: `formatPriceDisplay` is idempotent on every string; every
non-empty output begins with a prefix passing `/^rs\.?\s+/i` or with the
literal three-character mojibake sequence U+00E2 U+201A U+00B9 that the
source regular expression actually contains (not the rupee sign U+20B9);
and an empty or white-space-only input maps to the empty string. -/
theorem formatPriceDisplay_idempotent (s : String) :
    formatPriceDisplay (formatPriceDisplay s) = formatPriceDisplay s ∧
    (formatPriceDisplay s ≠ "" →
      (rsTest (formatPriceDisplay s).data || rupeeTest (formatPriceDisplay s).data) = true) ∧
    ((∀ c ∈ s.data, jsSpace c = true) → formatPriceDisplay s = "") := by
  refine ⟨?_, ?_, ?_⟩
  · have h : formatPriceDisplay (formatPriceDisplay s)
        = (formatPriceList (formatPriceList s.data)).asString := rfl
    rw [h, formatPriceList_idem]
    rfl
  · intro h
    have hne : formatPriceList s.data ≠ [] := by
      intro he
      apply h
      show (formatPriceList s.data).asString = ""
      rw [he]
      rfl
    exact formatPriceList_prefixTest hne
  · intro h
    show (formatPriceList s.data).asString = ""
    rw [formatPriceList_all_space h]
    rfl

/-- C9 witness: the theorem applied at the concrete inputs `5000` (whose
output is non-empty and passes the prefix test) and a white-space-only
string (which maps to empty), both guards discharged by evaluation. -/
theorem formatPriceDisplay_idempotent_witness :
    (rsTest (formatPriceDisplay "5000").data || rupeeTest (formatPriceDisplay "5000").data) = true ∧
    formatPriceDisplay "  " = "" :=
  ⟨(formatPriceDisplay_idempotent "5000").2.1 (by decide),
   (formatPriceDisplay_idempotent "  ").2.2 (by decide)⟩

/-- C3 witness: the theorem applied to a user whose stored status is
exactly `suspended`, showing the Enable path is taken there. -/
theorem adminUserButton_dispatch_witness :
    adminUserButtonCall (some (Json.obj [("approval_status", Json.str "suspended")])) =
      UserModerationCall.approveUser :=
  (adminUserButton_dispatch (some (Json.obj [("approval_status", Json.str "suspended")]))).1.mpr
    (by decide)

/-- C7 witness: the theorem applied at a concrete fully-provided call,
its guard discharged by evaluation. -/
theorem adminLogs_params_exact_witness :
    ("entity_id", intStr 4) ∈ adminLogsParams (some "listing") (some 4) (some 50) :=
  (adminLogs_params_exact (some "listing") (some 4) (some 50)).2.2.2.1 4 rfl

/-- C9 counterexample: on the input holding the literal mojibake sequence
followed by `5`, the program returns the string unchanged (its own second
regular expression matches), yet the non-empty output begins neither with
a prefix passing `/^rs\.?\s+/i` nor with the rupee-symbol prefix U+20B9 —
so the claim's characterization of non-empty outputs fails at this
input. -/
theorem formatPrice_mojibake_counterexample :
    formatPriceDisplay "â‚¹5" = "â‚¹5" ∧
    formatPriceDisplay "â‚¹5" ≠ "" ∧
    rsTest (formatPriceDisplay "â‚¹5").data = false ∧
    rupeeSignTest (formatPriceDisplay "â‚¹5").data = false := by
  exact ⟨rfl, by decide, rfl, rfl⟩
